import Mathlib

/-!
Verification development for the `transformers-from-scratch` notebook
(`src/transformers.ipynb`).

The notebook defines two pieces of code:

* `scaled_dot_product_attention(Q, K, V)`, a pure function on rank-3 torch
  tensors, and
* `class MultiHeadedAttention(nn.Module)` with an `__init__` and a `forward`.

We give a shallow embedding of both over an untyped tensor model: a tensor is
a record of its dimension sizes together with a total entry function
`ℕ → ... → ℝ` (entries outside the stated dimensions are irrelevant junk, and
every operation only reads in-range entries).  Torch operations that raise a
runtime shape error are embedded as `Option`-valued functions returning `none`
on the shapes torch rejects.  Torch's floating-point arithmetic is idealised
as real arithmetic, so `F.softmax` along an axis is the exact
`exp / sum-of-exp` formula along that axis.
-/

namespace TransformersFromScratch

/-- A rank-1 tensor: a length together with a total entry function. -/
@[ext]
structure T1 where
  n : ℕ
  entry : ℕ → ℝ

/-- A rank-2 tensor: two dimension sizes together with a total entry function. -/
@[ext]
structure T2 where
  d0 : ℕ
  d1 : ℕ
  entry : ℕ → ℕ → ℝ

/-- A rank-3 tensor: three dimension sizes together with a total entry function. -/
@[ext]
structure T3 where
  d0 : ℕ
  d1 : ℕ
  d2 : ℕ
  entry : ℕ → ℕ → ℕ → ℝ

/-- Embedding of `torch.transpose(t, 1, 2)`: swap the last two axes of a
rank-3 tensor. -/
def transpose12 (t : T3) : T3 :=
  ⟨t.d0, t.d2, t.d1, fun h i j => t.entry h j i⟩

/-- Embedding of `a @ b` (`torch.matmul`) for two rank-3 tensors: batched
matrix multiplication over the leading axis.  Torch raises a runtime error
unless the batch sizes agree and the inner dimensions match; those shapes are
embedded as `none`. -/
def bmm33 (a b : T3) : Option T3 :=
  if a.d0 = b.d0 ∧ a.d2 = b.d1 then
    some ⟨a.d0, a.d1, b.d2, fun h i j =>
      ∑ k ∈ Finset.range a.d2, a.entry h i k * b.entry h k j⟩
  else none

/-- Embedding of `x @ w` (`torch.matmul`) for a rank-2 `x` and a rank-3 `w`:
torch broadcasts `x` across the leading (batch) axis of `w`, producing a
rank-3 result of shape `(w.d0, x.d0, w.d2)`.  Requires `x.d1 = w.d1`. -/
def bmm23 (x : T2) (w : T3) : Option T3 :=
  if x.d1 = w.d1 then
    some ⟨w.d0, x.d0, w.d2, fun h i j =>
      ∑ k ∈ Finset.range x.d1, x.entry i k * w.entry h k j⟩
  else none

/-- Embedding of `a @ b` (`torch.matmul`) for two rank-2 tensors: ordinary
matrix multiplication, `none` on mismatched inner dimensions. -/
def mm22 (a b : T2) : Option T2 :=
  if a.d1 = b.d0 then
    some ⟨a.d0, b.d1, fun i j =>
      ∑ k ∈ Finset.range a.d1, a.entry i k * b.entry k j⟩
  else none

/-- Embedding of `t * c` for a rank-3 tensor and a scalar: entrywise
multiplication by the scalar (written `entry * c`, in the operand order of the
source expression `Q @ torch.transpose(K, 1, 2) * scaling_factor`). -/
def scaleT3 (c : ℝ) (t : T3) : T3 :=
  ⟨t.d0, t.d1, t.d2, fun h i j => t.entry h i j * c⟩

/-- Embedding of `F.softmax(t, dim=0)` on a rank-3 tensor: each entry is
exponentiated and normalised by the sum of the exponentials taken along
axis 0 (the leading axis), the other two indices held fixed. -/
noncomputable def softmax0 (t : T3) : T3 :=
  ⟨t.d0, t.d1, t.d2, fun h i j =>
    Real.exp (t.entry h i j) / ∑ h' ∈ Finset.range t.d0, Real.exp (t.entry h' i j)⟩

/-- Modelled from the spec: the standard softmax along the last (key) axis,
`F.softmax(t, dim=-1)`.  This is NOT what the source computes; it is the
alternative axis named by the spec ("Standard attention normalizes along the
key axis (the last axis)"), defined here only to be compared with the
implemented `softmax0`. -/
noncomputable def softmaxLastAxis (t : T3) : T3 :=
  ⟨t.d0, t.d1, t.d2, fun h i j =>
    Real.exp (t.entry h i j) / ∑ j' ∈ Finset.range t.d2, Real.exp (t.entry h i j')⟩

/-- Embedding of `scaled_dot_product_attention` from the notebook:

    d_keys = Q.shape[2]
    scaling_factor = 1 / math.sqrt(d_keys)
    return F.softmax(Q @ torch.transpose(K, 1, 2) * scaling_factor, dim=0) @ V

Python's `@` and `*` associate left with equal precedence, so the argument of
`F.softmax` is `(Q @ transpose(K, 1, 2)) * scaling_factor`. -/
noncomputable def scaled_dot_product_attention (Q K V : T3) : Option T3 :=
  let d_keys := Q.d2
  let scaling_factor : ℝ := 1 / Real.sqrt (d_keys : ℝ)
  (bmm33 Q (transpose12 K)).bind fun scores =>
    bmm33 (softmax0 (scaleT3 scaling_factor scores)) V

/-- Embedding of `torch.reshape` from rank 3 to rank 2 (the notebook's
`Z.reshape(x.shape[0], self.d_model)`): row-major reflattening.  Torch raises
a runtime error unless the element counts agree. -/
def reshape32 (t : T3) (r c : ℕ) : Option T2 :=
  if t.d0 * t.d1 * t.d2 = r * c then
    some ⟨r, c, fun i j =>
      t.entry ((i * c + j) / (t.d1 * t.d2)) ((i * c + j) % (t.d1 * t.d2) / t.d2)
        ((i * c + j) % t.d2)⟩
  else none

/-- Modelled from the spec: merging a per-head tensor of shape
`(num_heads, sequence_length, head_dim)` into `(sequence_length, d_model)` by
"concatenating heads along the feature axis", i.e. row `i` of the result is
`head_0[i] ++ head_1[i] ++ ...`.  Defined only to be compared with the plain
row-major `reshape32` the source actually performs. -/
def concatHeadsSpec (t : T3) : T2 :=
  ⟨t.d1, t.d0 * t.d2, fun i j => t.entry (j / t.d2) i (j % t.d2)⟩

/-- Embedding of `out += self.b_O`: broadcast addition of a rank-1 tensor to
every row of a rank-2 tensor.  Torch requires the vector length to equal the
row length (the only broadcasting case this module can reach). -/
def addBias2 (out : T2) (b : T1) : Option T2 :=
  if b.n = out.d1 then
    some ⟨out.d0, out.d1, fun i j => out.entry i j + b.entry j⟩
  else none

/-- Notebook global `d_model = 512` from the demonstration cell that precedes
the class definition. -/
def notebook_d_model : ℕ := 512

/-- Notebook global `num_heads = 8` from the demonstration cell. -/
def notebook_num_heads : ℕ := 8

/-- Notebook global `d_keys = d_model // num_heads` (= 64), computed from the
globals above.  `MultiHeadedAttention.__init__` shapes its weight tensors
with the bare name `d_keys`, which resolves to this global (only
`self.d_keys` is ever assigned inside the class). -/
def notebook_d_keys : ℕ := notebook_d_model / notebook_num_heads

/-- Notebook global `d_values = d_model // num_heads` (= 64); like
`notebook_d_keys`, this is what the bare `d_values` inside
`MultiHeadedAttention.__init__` resolves to. -/
def notebook_d_values : ℕ := notebook_d_model / notebook_num_heads

/-- The Python exceptions that `MultiHeadedAttention.__init__` can raise. -/
inductive PyError where
  | zeroDivisionError
  | assertionError
  | attributeError
  deriving DecidableEq

/-- State of a `MultiHeadedAttention` module instance: the constructor
arguments it stores plus its five parameter tensors (`b_O` is `None` — here
`none` — when absent).  The `dropout` field records the probability stored in
the (never exercised) `nn.Dropout` submodule. -/
structure MultiHeadedAttention where
  d_model : ℕ
  d_keys : ℕ
  d_values : ℕ
  num_heads : ℕ
  bias : Bool
  dropout : ℝ
  W_Q : T3
  W_K : T3
  W_V : T3
  W_O : T2
  b_O : Option T1

/-- Embedding of `MultiHeadedAttention.__init__(d_model, num_heads, bias,
dropout)`.  The random draws of `nn.init.xavier_normal_` and
`nn.init.uniform_` are abstracted as the parameters `iQ iK iV iO ib`: each
parameter tensor is created as zeros and then overwritten in place by its
initialiser, so its final entries are exactly the drawn values.  Control flow
follows the source in order:

* `assert (d_model % num_heads == 0)` — in Python, `d_model % 0` raises
  `ZeroDivisionError` before the assert can fail, and a nonzero remainder
  raises `AssertionError`;
* `self.d_keys = d_model // num_heads` and `self.d_values = d_model //
  num_heads` set the *fields*, but the `torch.zeros` shape tuples use the
  bare names `d_keys` / `d_values`, which Python resolves to the notebook
  globals (`notebook_d_keys = notebook_d_values = 64`), not to the fields;
  so the weight tensors are shaped `(num_heads, d_model, 64)`,
  `(64 * num_heads, d_model)` and `(64 * num_heads)` regardless of the
  constructor's own `d_model` / `num_heads`;
* `self.b_O = None`, then `if self.bias: self.b_O = nn.Parameter(...)`;
* `nn.init.uniform_(self.b_O)` is invoked unconditionally, so when `bias`
  is false it runs on `None` and raises `AttributeError`.

(`nn.Dropout`'s internal range check on its probability argument is torch
library behaviour not modelled here; the claims do not touch it.) -/
def mhaInit (d_model num_heads : ℕ) (bias : Bool) (dropout : ℝ)
    (iQ iK iV : ℕ → ℕ → ℕ → ℝ) (iO : ℕ → ℕ → ℝ) (ib : ℕ → ℝ) :
    Except PyError MultiHeadedAttention :=
  if num_heads = 0 then Except.error PyError.zeroDivisionError
  else if d_model % num_heads ≠ 0 then Except.error PyError.assertionError
  else
    let d_keys := d_model / num_heads
    let d_values := d_model / num_heads
    let W_Q : T3 := ⟨num_heads, d_model, notebook_d_keys, iQ⟩
    let W_K : T3 := ⟨num_heads, d_model, notebook_d_keys, iK⟩
    let W_V : T3 := ⟨num_heads, d_model, notebook_d_values, iV⟩
    let W_O : T2 := ⟨num_heads * notebook_d_values, d_model, iO⟩
    let b_O : Option T1 :=
      if bias then some ⟨num_heads * notebook_d_values, ib⟩ else none
    match b_O with
    | none => Except.error PyError.attributeError
    | some b =>
        Except.ok ⟨d_model, d_keys, d_values, num_heads, bias, dropout,
          W_Q, W_K, W_V, W_O, some b⟩

/-- Embedding of `MultiHeadedAttention.forward(x)` for a 2-D input `x`,
following the source line by line (the `print` calls are pure console output
with no effect on the result or the module and are omitted):

    Q = x @ self.W_Q; K = x @ self.W_K; V = x @ self.W_V
    Z = scaled_dot_product_attention(Q, K, V)
    Z = Z.reshape(x.shape[0], self.d_model)
    out = Z @ self.W_O
    if self.bias: out += self.b_O
    return out

The result is paired with the module state after the call; no statement of
`forward` assigns to `self`, so the returned state is the input state.
`out += self.b_O` with `b_O = None` would raise `TypeError`, embedded as
`none`. -/
noncomputable def MultiHeadedAttention.forward (m : MultiHeadedAttention) (x : T2) :
    Option T2 × MultiHeadedAttention :=
  let result : Option T2 :=
    (bmm23 x m.W_Q).bind fun Q =>
    (bmm23 x m.W_K).bind fun K =>
    (bmm23 x m.W_V).bind fun V =>
    (scaled_dot_product_attention Q K V).bind fun Z =>
    (reshape32 Z x.d0 m.d_model).bind fun Z2 =>
    (mm22 Z2 m.W_O).bind fun out =>
    if m.bias then
      match m.b_O with
      | some b => addBias2 out b
      | none => none
    else some out
  (result, m)

/-- Whether an `__init__` outcome produced a module instance. -/
def isOkB : Except PyError MultiHeadedAttention → Bool
  | Except.ok _ => true
  | Except.error _ => false

/-! Concrete sample data used by the witness theorems. -/

/-- All-zero rank-3 entry function, standing in for concrete random draws. -/
def zf3 : ℕ → ℕ → ℕ → ℝ := fun _ _ _ => 0

/-- All-zero rank-2 entry function. -/
def zf2 : ℕ → ℕ → ℝ := fun _ _ => 0

/-- All-zero rank-1 entry function. -/
def zf1 : ℕ → ℝ := fun _ => 0

/-- The module produced by `mhaInit 4 2 true 0 zf3 zf3 zf3 zf2 zf1`:
it stores `d_keys = d_values = 2` (= 4 / 2), but its weight tensors are
shaped by the notebook globals `d_keys = d_values = 64`. -/
def M0 : MultiHeadedAttention :=
  ⟨4, 2, 2, 2, true, 0, ⟨2, 4, 64, zf3⟩, ⟨2, 4, 64, zf3⟩, ⟨2, 4, 64, zf3⟩,
    ⟨128, 4, zf2⟩, some ⟨128, zf1⟩⟩

/-- A concrete input of shape `(1, 4)` for the sample module `M0`. -/
def X0 : T2 := ⟨1, 4, zf2⟩

/-- The module produced by `mhaInit 512 8 true 0 zf3 zf3 zf3 zf2 zf1`: the
notebook's demonstrated configuration, where `d_model / num_heads` agrees
with the globals that shape the weights (`512 = 64 * 8`). -/
def M512 : MultiHeadedAttention :=
  ⟨512, 64, 64, 8, true, 0, ⟨8, 512, 64, zf3⟩, ⟨8, 512, 64, zf3⟩,
    ⟨8, 512, 64, zf3⟩, ⟨512, 512, zf2⟩, some ⟨512, zf1⟩⟩

/-- The same module state as `M512` but with the `bias` flag cleared. -/
def M512f : MultiHeadedAttention :=
  ⟨512, 64, 64, 8, false, 0, ⟨8, 512, 64, zf3⟩, ⟨8, 512, 64, zf3⟩,
    ⟨8, 512, 64, zf3⟩, ⟨512, 512, zf2⟩, some ⟨512, zf1⟩⟩

/-- The bias vector stored in `M512`. -/
def b512 : T1 := ⟨512, zf1⟩

/-- A concrete input of shape `(1, 512)` for the sample module `M512`. -/
def X512 : T2 := ⟨1, 512, zf2⟩

/-- A concrete query tensor of shape `(2, 2, 2)`. -/
def Q0 : T3 := ⟨2, 2, 2, zf3⟩

/-- A concrete key tensor of shape `(2, 2, 2)`. -/
def K0 : T3 := ⟨2, 2, 2, zf3⟩

/-- A concrete value tensor of shape `(2, 2, 2)`. -/
def V0 : T3 := ⟨2, 2, 2, zf3⟩

/-- A concrete score tensor of shape `(2, 1, 1)` on which the axis-0 softmax
and the last-axis softmax disagree. -/
def EX0 : T3 := ⟨2, 1, 1, zf3⟩

/-- A concrete per-head output of shape `(2, 2, 1)` with four distinct
entries: `Z5[h][l][0] = 2*h + l`. -/
def Z5 : T3 := ⟨2, 2, 1, fun h l _ => ((2 * h + l : ℕ) : ℝ)⟩

/-! Helper lemmas shared by the claim theorems. -/

/-- Inversion for a successful construction: the arguments satisfied every
check and the resulting module state is determined by them. -/
theorem mhaInit_ok_inv (dm H : ℕ) (bias : Bool) (dp : ℝ)
    (iQ iK iV : ℕ → ℕ → ℕ → ℝ) (iO : ℕ → ℕ → ℝ) (ib : ℕ → ℝ)
    (m : MultiHeadedAttention)
    (h : mhaInit dm H bias dp iQ iK iV iO ib = Except.ok m) :
    H ≠ 0 ∧ dm % H = 0 ∧ bias = true ∧
      m = ⟨dm, dm / H, dm / H, H, true, dp, ⟨H, dm, notebook_d_keys, iQ⟩,
        ⟨H, dm, notebook_d_keys, iK⟩, ⟨H, dm, notebook_d_values, iV⟩,
        ⟨H * notebook_d_values, dm, iO⟩,
        some ⟨H * notebook_d_values, ib⟩⟩ := by
  by_cases h0 : H = 0
  · simp [mhaInit, h0] at h
  · by_cases h1 : dm % H = 0
    · cases bias with
      | false => simp [mhaInit, h0, h1] at h
      | true =>
        simp [mhaInit, h0, h1] at h
        exact ⟨h0, h1, rfl, h.symm⟩
    · simp [mhaInit, h0, h1] at h

/-- Characterisation of a successful `scaled_dot_product_attention` call:
when the shapes torch checks all match, the call returns the fully unfolded
softmax-weighted combination of `V`. -/
theorem sdpa_some (Q K V : T3) (hK0 : K.d0 = Q.d0) (hK2 : K.d2 = Q.d2)
    (hV0 : V.d0 = Q.d0) (hV1 : V.d1 = K.d1) :
    scaled_dot_product_attention Q K V =
      some ⟨Q.d0, Q.d1, V.d2, fun h i d =>
        ∑ j ∈ Finset.range K.d1,
          Real.exp ((∑ k ∈ Finset.range Q.d2, Q.entry h i k * K.entry h j k) *
              (1 / Real.sqrt (Q.d2 : ℝ))) /
            (∑ h' ∈ Finset.range Q.d0,
              Real.exp ((∑ k ∈ Finset.range Q.d2, Q.entry h' i k * K.entry h' j k) *
                (1 / Real.sqrt (Q.d2 : ℝ)))) *
          V.entry h j d⟩ := by
  simp only [scaled_dot_product_attention, bmm33, transpose12, softmax0,
    scaleT3, hK0, hK2, hV0, hV1, and_self, if_true, if_pos, Option.bind_some,
    Option.some_bind, and_true, true_and, eq_self_iff_true]

/-! Claim theorems. -/

/-- C8: for all `Q`, `K`, `V` of shape `(heads, sequence_length, head_dim)`
(with `Q` and `K` sharing `head_dim` and `sequence_length` across matching
axes), `scaled_dot_product_attention` succeeds and its output shape equals
`V`'s shape. -/
theorem sdpa_output_shape_eq_V (Q K V : T3)
    (hK0 : K.d0 = Q.d0) (hV0 : V.d0 = Q.d0)
    (hK1 : K.d1 = Q.d1) (hV1 : V.d1 = Q.d1)
    (hK2 : K.d2 = Q.d2) (_hV2 : V.d2 = Q.d2) :
    ∃ O, scaled_dot_product_attention Q K V = some O ∧
      O.d0 = V.d0 ∧ O.d1 = V.d1 ∧ O.d2 = V.d2 :=
  ⟨_, sdpa_some Q K V hK0 hK2 hV0 (hV1.trans hK1.symm),
    hV0.symm, hV1.symm, rfl⟩

/-- Witness for C8 at concrete `(2, 2, 2)` tensors. -/
theorem sdpa_output_shape_eq_V_witness :
    ∃ O, scaled_dot_product_attention Q0 K0 V0 = some O ∧
      O.d0 = V0.d0 ∧ O.d1 = V0.d1 ∧ O.d2 = V0.d2 :=
  sdpa_output_shape_eq_V Q0 K0 V0 rfl rfl rfl rfl rfl rfl

/-- C9: inside `scaled_dot_product_attention`, the weight tensor produced by
the softmax sums to 1 along the softmax axis (axis 0 as implemented), for
every fixed index of the other axes. -/
theorem sdpa_softmax_sums_to_one (Q K V : T3)
    (hK0 : K.d0 = Q.d0) (hK2 : K.d2 = Q.d2) (h0 : 0 < Q.d0) :
    ∃ S, bmm33 Q (transpose12 K) = some S ∧
      scaled_dot_product_attention Q K V =
        bmm33 (softmax0 (scaleT3 (1 / Real.sqrt (Q.d2 : ℝ)) S)) V ∧
      ∀ i j, ∑ h ∈ Finset.range Q.d0,
        (softmax0 (scaleT3 (1 / Real.sqrt (Q.d2 : ℝ)) S)).entry h i j = 1 := by
  have hS : bmm33 Q (transpose12 K) =
      some ⟨Q.d0, Q.d1, K.d1, fun h i j =>
        ∑ k ∈ Finset.range Q.d2, Q.entry h i k * K.entry h j k⟩ := by
    simp [bmm33, transpose12, hK0, hK2]
  refine ⟨_, hS, ?_, ?_⟩
  · simp only [scaled_dot_product_attention, hS, Option.some_bind]
  · intro i j
    simp only [softmax0, scaleT3]
    rw [← Finset.sum_div]
    exact div_self (ne_of_gt (Finset.sum_pos (fun h _ => Real.exp_pos _)
      (Finset.nonempty_range_iff.mpr h0.ne')))

/-- Witness for C9 at concrete `(2, 2, 2)` tensors. -/
theorem sdpa_softmax_sums_to_one_witness :
    ∃ S, bmm33 Q0 (transpose12 K0) = some S ∧
      scaled_dot_product_attention Q0 K0 V0 =
        bmm33 (softmax0 (scaleT3 (1 / Real.sqrt (Q0.d2 : ℝ)) S)) V0 ∧
      ∀ i j, ∑ h ∈ Finset.range Q0.d0,
        (softmax0 (scaleT3 (1 / Real.sqrt (Q0.d2 : ℝ)) S)).entry h i j = 1 :=
  sdpa_softmax_sums_to_one Q0 K0 V0 rfl rfl (by decide)

/-- C3: in `scaled_dot_product_attention` the softmax normalises along
axis 0 (the heads axis) of the scaled score tensor: each output entry is a
`V`-combination whose weights are normalised by a sum over the head index,
and the implemented softmax differs from the last-axis softmax on a concrete
score tensor. -/
theorem sdpa_softmax_axis0 (Q K V : T3)
    (hK0 : K.d0 = Q.d0) (hK2 : K.d2 = Q.d2)
    (hV0 : V.d0 = Q.d0) (hV1 : V.d1 = K.d1) :
    (∃ O, scaled_dot_product_attention Q K V = some O ∧
      ∀ h i d, O.entry h i d =
        ∑ j ∈ Finset.range K.d1,
          Real.exp ((∑ k ∈ Finset.range Q.d2, Q.entry h i k * K.entry h j k) *
              (1 / Real.sqrt (Q.d2 : ℝ))) /
            (∑ h' ∈ Finset.range Q.d0,
              Real.exp ((∑ k ∈ Finset.range Q.d2, Q.entry h' i k * K.entry h' j k) *
                (1 / Real.sqrt (Q.d2 : ℝ)))) *
          V.entry h j d) ∧
      softmax0 EX0 ≠ softmaxLastAxis EX0 := by
  refine ⟨⟨_, sdpa_some Q K V hK0 hK2 hV0 hV1, fun h i d => rfl⟩, ?_⟩
  intro hEq
  have h2 := congrFun (congrFun (congrFun (congrArg T3.entry hEq) 0) 0) 0
  simp [softmax0, softmaxLastAxis, EX0, zf3, Finset.sum_range_succ,
    Real.exp_zero] at h2

/-- Witness for C3 at concrete `(2, 2, 2)` tensors. -/
theorem sdpa_softmax_axis0_witness :
    (∃ O, scaled_dot_product_attention Q0 K0 V0 = some O ∧
      ∀ h i d, O.entry h i d =
        ∑ j ∈ Finset.range K0.d1,
          Real.exp ((∑ k ∈ Finset.range Q0.d2, Q0.entry h i k * K0.entry h j k) *
              (1 / Real.sqrt (Q0.d2 : ℝ))) /
            (∑ h' ∈ Finset.range Q0.d0,
              Real.exp ((∑ k ∈ Finset.range Q0.d2, Q0.entry h' i k * K0.entry h' j k) *
                (1 / Real.sqrt (Q0.d2 : ℝ)))) *
          V0.entry h j d) ∧
      softmax0 EX0 ≠ softmaxLastAxis EX0 :=
  sdpa_softmax_axis0 Q0 K0 V0 rfl rfl rfl rfl

/-- C4: in `scaled_dot_product_attention` the raw scores `Q @ transpose(K)`
are multiplied by exactly `1 / sqrt(head_dim)` with `head_dim` read from the
last axis of `Q`, and `head_dim = 4` gives the factor `1/2`. -/
theorem sdpa_scaling_factor (Q K V : T3)
    (hK0 : K.d0 = Q.d0) (hK2 : K.d2 = Q.d2) :
    (∃ S, bmm33 Q (transpose12 K) = some S ∧
      (∀ h i j, S.entry h i j =
        ∑ k ∈ Finset.range Q.d2, Q.entry h i k * K.entry h j k) ∧
      scaled_dot_product_attention Q K V =
        bmm33 (softmax0 (scaleT3 (1 / Real.sqrt (Q.d2 : ℝ)) S)) V ∧
      ∀ h i j, (scaleT3 (1 / Real.sqrt (Q.d2 : ℝ)) S).entry h i j =
        S.entry h i j * (1 / Real.sqrt (Q.d2 : ℝ))) ∧
      (1 : ℝ) / Real.sqrt ((4 : ℕ) : ℝ) = 1 / 2 := by
  have hS : bmm33 Q (transpose12 K) =
      some ⟨Q.d0, Q.d1, K.d1, fun h i j =>
        ∑ k ∈ Finset.range Q.d2, Q.entry h i k * K.entry h j k⟩ := by
    simp [bmm33, transpose12, hK0, hK2]
  refine ⟨⟨_, hS, fun h i j => rfl, ?_, fun h i j => rfl⟩, ?_⟩
  · simp only [scaled_dot_product_attention, hS, Option.some_bind]
  · have h4 : ((4 : ℕ) : ℝ) = (2 : ℝ) ^ 2 := by norm_num
    rw [h4, Real.sqrt_sq (by norm_num : (0 : ℝ) ≤ 2)]

/-- Witness for C4 at concrete `(2, 2, 2)` tensors. -/
theorem sdpa_scaling_factor_witness :
    (∃ S, bmm33 Q0 (transpose12 K0) = some S ∧
      (∀ h i j, S.entry h i j =
        ∑ k ∈ Finset.range Q0.d2, Q0.entry h i k * K0.entry h j k) ∧
      scaled_dot_product_attention Q0 K0 V0 =
        bmm33 (softmax0 (scaleT3 (1 / Real.sqrt (Q0.d2 : ℝ)) S)) V0 ∧
      ∀ h i j, (scaleT3 (1 / Real.sqrt (Q0.d2 : ℝ)) S).entry h i j =
        S.entry h i j * (1 / Real.sqrt (Q0.d2 : ℝ))) ∧
      (1 : ℝ) / Real.sqrt ((4 : ℕ) : ℝ) = 1 / 2 :=
  sdpa_scaling_factor Q0 K0 V0 rfl rfl

/-- Shape of a successful `mm22` result. -/
theorem mm22_some_shape (a c o : T2) (h : mm22 a c = some o) :
    o.d0 = a.d0 ∧ o.d1 = c.d1 := by
  unfold mm22 at h
  split at h
  · cases h
    exact ⟨rfl, rfl⟩
  · cases h

/-- C1 (evaluation at the failing input): the claimed shape guarantee fails.
`__init__` shapes the weights with the notebook globals
`d_keys = d_values = 64` (the bare names in its `torch.zeros` calls), so for
the module constructed with `d_model = 4`, `num_heads = 2` and an input of
shape `(1, 4)`, the attention output `Z` has shape `(2, 1, 64)` and
`Z.reshape(1, 4)` fails (128 elements cannot be reshaped to 4): `forward`
returns no tensor at all.  At the notebook's demonstrated configuration
`d_model = 512 = 64 * num_heads`, `forward` does return a `(1, 512)`
tensor. -/
theorem mha_forward_reshape_crash :
    mhaInit 4 2 true 0 zf3 zf3 zf3 zf2 zf1 = Except.ok M0 ∧
      (M0.forward X0).1 = none ∧
      mhaInit 512 8 true 0 zf3 zf3 zf3 zf2 zf1 = Except.ok M512 ∧
      ∃ y, (M512.forward X512).1 = some y ∧ y.d0 = 1 ∧ y.d1 = 512 :=
  ⟨rfl, rfl, rfl, _, rfl, rfl, rfl⟩

/-- C2 (evaluation at the failing input): `d_model = 4` and `num_heads = 2`
satisfy the divisibility check, yet construction with `bias = False` raises
`AttributeError` instead of succeeding, while the same arguments with
`bias = True` do construct a module. -/
theorem mha_construction_bias_false_error :
    (4 : ℕ) % 2 = 0 ∧
      mhaInit 4 2 false 0 zf3 zf3 zf3 zf2 zf1 =
        Except.error PyError.attributeError ∧
      ∃ m, mhaInit 4 2 true 0 zf3 zf3 zf3 zf2 zf1 = Except.ok m :=
  ⟨rfl, rfl, M0, rfl⟩

/-- C6: construction with `bias = False` raises: `b_O` stays `None` and
`nn.init.uniform_` is unconditionally invoked on it, so an otherwise valid
configuration fails with `AttributeError`, and no call of `__init__` with
`bias = False` can ever return a module instance. -/
theorem mha_bias_false_always_errors (dm H : ℕ) (dp : ℝ)
    (iQ iK iV : ℕ → ℕ → ℕ → ℝ) (iO : ℕ → ℕ → ℝ) (ib : ℕ → ℝ)
    (hH : H ≠ 0) (hdiv : dm % H = 0) :
    mhaInit dm H false dp iQ iK iV iO ib = Except.error PyError.attributeError ∧
      ∀ (dm2 H2 : ℕ) (dp2 : ℝ) (jQ jK jV : ℕ → ℕ → ℕ → ℝ)
        (jO : ℕ → ℕ → ℝ) (jb : ℕ → ℝ),
        isOkB (mhaInit dm2 H2 false dp2 jQ jK jV jO jb) = false := by
  constructor
  · simp [mhaInit, hH, hdiv]
  · intro dm2 H2 dp2 jQ jK jV jO jb
    by_cases h0 : H2 = 0
    · simp [mhaInit, isOkB, h0]
    · by_cases h1 : dm2 % H2 = 0
      · simp [mhaInit, isOkB, h0, h1]
      · simp [mhaInit, isOkB, h0, h1]

/-- Witness for C6 at `d_model = 4`, `num_heads = 2`. -/
theorem mha_bias_false_always_errors_witness :
    mhaInit 4 2 false 0 zf3 zf3 zf3 zf2 zf1 =
        Except.error PyError.attributeError ∧
      ∀ (dm2 H2 : ℕ) (dp2 : ℝ) (jQ jK jV : ℕ → ℕ → ℕ → ℝ)
        (jO : ℕ → ℕ → ℝ) (jb : ℕ → ℝ),
        isOkB (mhaInit dm2 H2 false dp2 jQ jK jV jO jb) = false :=
  mha_bias_false_always_errors 4 2 0 zf3 zf3 zf3 zf2 zf1 (by decide) (by decide)

/-- C5 (evaluation at the failing input): on the per-head output `Z5` of
shape `(2, 2, 1)` with entries `Z5[h][l][0] = 2*h + l`, the source's
`Z.reshape(L, d_model)` places `Z5[0][1][0] = 1` at merged position `(0, 1)`,
whereas concatenating the heads along the feature axis places
`Z5[1][0][0] = 2` there: the row-major reshape is not head concatenation. -/
theorem reshape_not_head_concat :
    (reshape32 Z5 2 2).map (fun R => R.entry 0 1) = some 1 ∧
      (concatHeadsSpec Z5).entry 0 1 = 2 ∧
      (reshape32 Z5 2 2).map (fun R => R.entry 0 1) ≠
        some ((concatHeadsSpec Z5).entry 0 1) := by
  refine ⟨?_, ?_, ?_⟩
  · norm_num [reshape32, Z5]
  · norm_num [concatHeadsSpec, Z5]
  · norm_num [reshape32, concatHeadsSpec, Z5]

/-- C7: for matching weight tensors, a module state with `bias = False`
produces on every input exactly the output of the `bias = True` module minus
the bias vector `b_O` (stated as: the unbiased result equals the biased
result with `b_O` subtracted from every row). -/
theorem mha_bias_off_output (m mf : MultiHeadedAttention) (b : T1) (x : T2)
    (hbias : m.bias = true) (hb : m.b_O = some b)
    (hbiasf : mf.bias = false)
    (hWQ : mf.W_Q = m.W_Q) (hWK : mf.W_K = m.W_K) (hWV : mf.W_V = m.W_V)
    (hWO : mf.W_O = m.W_O) (hdm : mf.d_model = m.d_model)
    (hWOd : m.W_O.d1 = m.d_model) (hn : b.n = m.d_model) :
    (mf.forward x).1 =
      ((m.forward x).1).map
        (fun y => ⟨y.d0, y.d1, fun i j => y.entry i j - b.entry j⟩) := by
  simp only [MultiHeadedAttention.forward, hWQ, hWK, hWV, hWO, hdm, hbias,
    hbiasf, hb]
  cases hQ : bmm23 x m.W_Q with
  | none => simp [hQ]
  | some Q =>
    cases hK : bmm23 x m.W_K with
    | none => simp [hQ, hK]
    | some K =>
      cases hV : bmm23 x m.W_V with
      | none => simp [hQ, hK, hV]
      | some V =>
        cases hZ : scaled_dot_product_attention Q K V with
        | none => simp [hQ, hK, hV, hZ]
        | some Z =>
          cases hZ2 : reshape32 Z x.d0 m.d_model with
          | none => simp [hQ, hK, hV, hZ, hZ2]
          | some Z2 =>
            cases hout : mm22 Z2 m.W_O with
            | none => simp [hQ, hK, hV, hZ, hZ2, hout]
            | some out =>
              have hod : out.d1 = m.W_O.d1 := (mm22_some_shape Z2 m.W_O out hout).2
              have hbn : b.n = out.d1 := by rw [hod, hWOd, hn]
              simp only [hQ, hK, hV, hZ, hZ2, hout, Option.some_bind,
                Bool.false_eq_true, if_false, if_true, addBias2, hbn, if_pos,
                Option.map_some']
              refine congrArg some ?_
              ext i j
              · rfl
              · rfl
              · simp

/-- Witness for C7: the sample biased module `M512` (the notebook's
demonstrated configuration), its bias-off copy `M512f`, and the `(1, 512)`
input `X512`. -/
theorem mha_bias_off_output_witness :
    (M512f.forward X512).1 =
      ((M512.forward X512).1).map
        (fun y => ⟨y.d0, y.d1, fun i j => y.entry i j - b512.entry j⟩) :=
  mha_bias_off_output M512 M512f b512 X512 rfl rfl rfl rfl rfl rfl rfl rfl
    rfl rfl

/-- C10: `forward` leaves the module state — in particular all five weight
tensors — unchanged: the state after a forward call equals the state before
it. -/
theorem mha_forward_preserves_state (m : MultiHeadedAttention) (x : T2) :
    (m.forward x).2 = m ∧
      (m.forward x).2.W_Q = m.W_Q ∧ (m.forward x).2.W_K = m.W_K ∧
      (m.forward x).2.W_V = m.W_V ∧ (m.forward x).2.W_O = m.W_O ∧
      (m.forward x).2.b_O = m.b_O ∧ (m.forward x).2.d_model = m.d_model ∧
      (m.forward x).2.d_keys = m.d_keys ∧ (m.forward x).2.d_values = m.d_values ∧
      (m.forward x).2.num_heads = m.num_heads ∧ (m.forward x).2.bias = m.bias ∧
      (m.forward x).2.dropout = m.dropout :=
  ⟨rfl, rfl, rfl, rfl, rfl, rfl, rfl, rfl, rfl, rfl, rfl, rfl⟩

end TransformersFromScratch
